import Mathlib

/-!
Verification of the robot build/stash CLI client (gapid) against its
natural-language specification.

The Go sources are shallowly embedded:
* errors (`error` values produced by `cause.Explain`, the query parser and
  the RPC layer) become the inductive type `GoError`;
* the streaming search executor (`SearchTracks` with a visitor closure that
  may abort the stream by returning an error) becomes a fold over the list
  of matching tracks, stopping at the first visitor error;
* the remote store's `UpdateTrack` and `Add` calls become function-valued
  parameters (oracles), and the tracks passed to `UpdateTrack` are recorded
  in a trace so that claims of the form "UpdateTrack is never invoked" are
  expressible;
* the version-control collaborator (`git`) and the OS user lookup become an
  environment record of `Except` values.
-/

/-- Error values, as produced by the Go client.
`remote` is an opaque RPC-level failure, `parse` an opaque parser
diagnostic; `explained msg inner` is `cause.Explain(ctx, inner, msg)` with a
non-nil cause, and `explainedNil msg` is `cause.Explain(ctx, nil, msg)`. -/
inductive GoError where
  | remote (msg : String)
  | parse (msg : String)
  | explainedNil (msg : String)
  | explained (msg : String) (inner : GoError)
deriving DecidableEq, Repr

deriving instance DecidableEq for Except

/-- A build track entity (`build.Track`): `Id`, `Name`, `Description` and
`Head` (the id of the package at the head of the track). -/
structure Track where
  Id : String
  Name : String
  Description : String
  Head : String
deriving DecidableEq, Repr

/-- The shared flag structure `buildFlags` of the robot CLI. -/
structure BuildFlags where
  tag : String
  cl : String
  branch : String
  description : String
  uploader : String
  name : String
  pkg : String
deriving DecidableEq, Repr

/-- The server-side meaning of the bound query
`Id == $ or Name == $` applied to `token`: a track matches iff its id or
its name equals the token. -/
def idOrNameMatches (token : String) (t : Track) : Bool :=
  t.Id == token || t.Name == token

/-- The visitor closure of `doTrackUpdate`: if a match was already recorded
(`track.Id != ""`) it aborts with the ambiguity error, otherwise it records
the visited entry's id on the track being built. -/
def trackVisitor (track : Track) (entry : Track) : Except GoError Track :=
  if track.Id != "" then
    .error (.explainedNil "Multiple tracks matched")
  else
    .ok { track with Id := entry.Id }

/-- The streaming search executor (`SearchTracks`) specialised to the
resolver's visitor: visits the matching tracks in stream order, threading
the track being built; a visitor error stops the stream immediately and
propagates. -/
def searchTracksVisitFold : List Track → Track → Except GoError Track
  | [], track => .ok track
  | entry :: rest, track =>
    match trackVisitor track entry with
    | .error e => .error e
    | .ok track1 => searchTracksVisitFold rest track1

/-- The resolution phase of `doTrackUpdate`: builds the write-intent track
from the caller flags; with no positional argument resolution is skipped,
otherwise the bound `Id == $ or Name == $` query is streamed over the
dataset and the result checked for the not-found sentinel. -/
def resolveTrack (flags : BuildFlags) (args : List String)
    (dataset : List Track) : Except GoError Track :=
  let track0 : Track :=
    { Id := "", Name := flags.name, Description := flags.description,
      Head := flags.pkg }
  match args with
  | [] => .ok track0
  | tok :: _ =>
    match searchTracksVisitFold (dataset.filter (idOrNameMatches tok)) track0 with
    | .error e => .error e
    | .ok t =>
      if t.Id == "" then .error (.explainedNil "No tracks matched")
      else .ok t

/-- The observable outcome of one `doTrackUpdate` invocation: the tracks
passed to the store's `UpdateTrack` RPC, in order, and the error returned
to the verb boundary. -/
structure TrackUpdateRun where
  updateCalls : List Track
  result : Except GoError Unit
deriving DecidableEq, Repr

/-- `doTrackUpdate`: resolve (unless the argument list is empty), then call
`UpdateTrack` with the built track; a resolution error or an `UpdateTrack`
error is returned unmodified. `updateTrackFn` is the store's `UpdateTrack`
oracle. -/
def doTrackUpdate (flags : BuildFlags) (args : List String)
    (dataset : List Track) (updateTrackFn : Track → Except GoError Track) :
    TrackUpdateRun :=
  match resolveTrack flags args dataset with
  | .error e => { updateCalls := [], result := .error e }
  | .ok t =>
    match updateTrackFn t with
    | .error e => { updateCalls := [t], result := .error e }
    | .ok _ => { updateCalls := [t], result := .ok () }

/-- The closed set of build provenance confidence levels (`build.BuildBot`,
`build.User`, `build.Local`). -/
inductive BuildType where
  | BuildBot
  | User
  | Local
deriving DecidableEq, Repr

/-- Build provenance (`build.Information`): the value object constructed
once by `prepare` and reused for every file of the upload session.
`Typ` embeds the Go field `Type` (a reserved word in Lean); `Builder`
abstracts the host device record. -/
structure Information where
  Typ : BuildType
  Branch : String
  Cl : String
  Tag : String
  Description : String
  Builder : String
  Uploader : String
deriving DecidableEq, Repr

/-- The change-list record returned by the git collaborator's `HeadCL`:
the commit sha (`cl.SHA.String()`) and its subject line. -/
structure GitCL where
  sha : String
  subject : String
deriving DecidableEq, Repr

/-- The working-tree status returned by the git collaborator's `Status`:
only its `Clean()` predicate is consumed. -/
structure GitStatus where
  clean : Bool
deriving DecidableEq, Repr

/-- The git collaborator once opened: each query may independently fail
(each failure is logged as an advisory notice and tolerated). -/
structure GitRepo where
  headCL : Except GoError GitCL
  status : Except GoError GitStatus
  currentBranch : Except GoError String

/-- The environment consulted by `(*buildUploader).prepare`: the result of
`git.New(".")` and of the OS user lookup `user.Current()`. -/
structure PrepareEnv where
  gitOpen : Except GoError GitRepo
  osUser : Except GoError String

/-- The inference body of `(*buildUploader).prepare`: starts from type
BuildBot; if git opens, the type becomes User, the cl / description /
branch flags are guessed when empty, and a dirty working tree overrides the
type to Local; an empty uploader flag is guessed from the OS user; every
inference failure leaves the corresponding flag as supplied. -/
def inferBuildInfo (f : BuildFlags) (env : PrepareEnv) (host : String) :
    Information :=
  let typAndFlags : BuildType × BuildFlags :=
    match env.gitOpen with
    | .error _ => (BuildType.BuildBot, f)
    | .ok g =>
      let f1 :=
        match g.headCL with
        | .error _ => f
        | .ok cl =>
          let fa := if f.cl == "" then { f with cl := cl.sha } else f
          if fa.description == "" then { fa with description := cl.subject }
          else fa
      let typ :=
        match g.status with
        | .error _ => BuildType.User
        | .ok st => if st.clean then BuildType.User else BuildType.Local
      let f2 :=
        if f1.branch == "" then
          match g.currentBranch with
          | .error _ => f1
          | .ok br => { f1 with branch := br }
        else f1
      (typ, f2)
  let typ := typAndFlags.1
  let fg := typAndFlags.2
  let fu :=
    if fg.uploader == "" then
      match env.osUser with
      | .error _ => fg
      | .ok uname => { fg with uploader := uname }
    else fg
  { Typ := typ, Branch := fu.branch, Cl := fu.cl, Tag := fu.tag,
    Description := fu.description, Builder := host, Uploader := fu.uploader }

/-- `(*buildUploader).prepare`: populates `u.info` from the flags and the
environment and always returns a nil error (inference failures are
advisory only). -/
def buildUploaderPrepare (f : BuildFlags) (env : PrepareEnv) (host : String) :
    Except GoError Information :=
  .ok (inferBuildInfo f env host)

/-- `(*buildUploader).process`: calls the store's `Add` with the file id
and the shared build information; a store error is wrapped in the
explanation "Failed processing build", success (merged or new) returns
nil. `add` is the store oracle returning the build-set id and the merged
flag. -/
def buildUploaderProcess
    (add : String → Information → Except GoError (String × Bool))
    (id : String) (info : Information) : Except GoError Unit :=
  match add id info with
  | .error e => .error (.explained "Failed processing build" e)
  | .ok _ => .ok ()

/-- A compiled search expression as returned by `script.Parse`; `query` is
the opaque executable `Query` value produced by `expr.Query()`. -/
structure Expr where
  query : String
deriving DecidableEq, Repr

/-- The observable outcome of one search verb invocation: the queries
passed to the domain search RPC, in order, and the error returned to the
verb boundary. -/
structure SearchVerbRun where
  searchCalls : List String
  result : Except GoError Unit
deriving DecidableEq, Repr

/-- `doArtifactSearch`: joins the positional arguments with spaces, parses
them with `script.Parse` (wrapping a parse failure in the explanation
"Malformed search query"), then streams `SearchArtifacts` with a printing
visitor that never errors. `parse` embeds `script.Parse` and `search` the
store's `SearchArtifacts` call. -/
def doArtifactSearch (parse : String → Except GoError Expr)
    (search : String → Except GoError Unit) (args : List String) :
    SearchVerbRun :=
  match parse (String.intercalate " " args) with
  | .error e => { searchCalls := [], result := .error (.explained "Malformed search query" e) }
  | .ok expr => { searchCalls := [expr.query], result := search expr.query }

/-- `doPackageSearch`: same pipeline as `doArtifactSearch` over the
package domain (`SearchPackages`). -/
def doPackageSearch (parse : String → Except GoError Expr)
    (search : String → Except GoError Unit) (args : List String) :
    SearchVerbRun :=
  match parse (String.intercalate " " args) with
  | .error e => { searchCalls := [], result := .error (.explained "Malformed search query" e) }
  | .ok expr => { searchCalls := [expr.query], result := search expr.query }

/-- `doTrackSearch`: same pipeline as `doArtifactSearch` over the track
domain (`SearchTracks`). -/
def doTrackSearch (parse : String → Except GoError Expr)
    (search : String → Except GoError Unit) (args : List String) :
    SearchVerbRun :=
  match parse (String.intercalate " " args) with
  | .error e => { searchCalls := [], result := .error (.explained "Malformed search query" e) }
  | .ok expr => { searchCalls := [expr.query], result := search expr.query }

/-- `doStashSearch`: first connects to the stash store
(`stashgrpc.Connect`), returning a connection error unmodified; then the
same parse-and-stream pipeline over the stash domain (`store.Search`). -/
def doStashSearch (connect : Except GoError Unit)
    (parse : String → Except GoError Expr)
    (search : String → Except GoError Unit) (args : List String) :
    SearchVerbRun :=
  match connect with
  | .error e => { searchCalls := [], result := .error e }
  | .ok _ =>
    match parse (String.intercalate " " args) with
    | .error e => { searchCalls := [], result := .error (.explained "Malformed search query" e) }
    | .ok expr => { searchCalls := [expr.query], result := search expr.query }

/-- An open client connection, abstracted to its address. -/
structure GrpcConn where
  addr : String

/-- `stashUploader.prepare`: returns nil unconditionally. -/
def stashUploaderPrepare (_conn : GrpcConn) : Except GoError Unit := .ok ()

/-- `stashUploader.process`: returns nil unconditionally, without issuing
any stash store call. -/
def stashUploaderProcess (_path : String) : Except GoError Unit := .ok ()

/-- Modelled from the spec: the upload driver `doUpload` (referenced by the
`upload stash` verb registration but not part of the examined sources)
iterates the listed files strictly sequentially, invoking the uploader's
`process` on each path and reporting the per-file outcome; a failure on one
file does not prevent attempting the next. Specialised to `stashUploader`. -/
def doUploadStash (paths : List String) : List (String × Except GoError Unit) :=
  paths.map (fun p => (p, stashUploaderProcess p))

/-- Vertex stream semantic types (`vertex.Semantic_Type`); `Unknown` is the
proto zero value, i.e. the unset label. -/
inductive Semantic where
  | Unknown
  | Position
  | Color
  | Texcoord
  | Normal
  | Tangent
  | Bitangent
deriving DecidableEq, Repr

/-- A named vertex data stream with its (possibly unset) semantic label. -/
structure VertexStream where
  name : String
  semantic : Semantic
deriving DecidableEq, Repr

/-- Go `strings.Contains(strings.ToLower(name), pattern)`: the pattern
occurs as a contiguous substring of the lower-cased stream name. Stated on
the underlying character lists so that the kernel can evaluate it. -/
def nameContains (name pattern : String) : Bool :=
  ((name.data.map Char.toLower).tails).any
    (fun t => pattern.data.isPrefixOf t)

/-- The ordered rule table `semanticPatterns`, from highest priority to
lowest. -/
def semanticPatterns : List (String × Semantic) :=
  [("position", .Position),
   ("normal", .Normal),
   ("tangent", .Tangent),
   ("bitangent", .Bitangent),
   ("binormal", .Bitangent),
   ("texcoord", .Texcoord),
   ("pos", .Position),
   ("uv", .Texcoord),
   ("vertex", .Position)]

/-- The inner loop of `guessSemantics` for one rule: walks the streams in
order and relabels the first one whose lower-cased name contains the
pattern (then breaks); `none` when no stream matches, so the rule claims
nothing. -/
def assignFirst (pattern : String) (sem : Semantic) :
    List VertexStream → Option (List VertexStream)
  | [] => none
  | s :: rest =>
    if nameContains s.name pattern then
      some ({ s with semantic := sem } :: rest)
    else
      match assignFirst pattern sem rest with
      | none => none
      | some rest1 => some (s :: rest1)

/-- One outer-loop step of `guessSemantics`: skip the rule if its label is
already taken, otherwise try to relabel the first matching stream and, on
success, mark the label as taken. -/
def guessStep (acc : List VertexStream × List Semantic)
    (p : String × Semantic) : List VertexStream × List Semantic :=
  if acc.2.contains p.2 then acc
  else
    match assignFirst p.1 p.2 acc.1 with
    | none => acc
    | some ss1 => (ss1, p.2 :: acc.2)

/-- `guessSemantics` (gles): iterates the rule table in declared order over
the streams, with a taken-set of already claimed labels. -/
def guessSemantics (streams : List VertexStream) : List VertexStream :=
  (semanticPatterns.foldl guessStep (streams, [])).1

/-- Spec formulation of one rule application, following the amended wording
of claim C8: the streams strictly before the first stream whose lower-cased
name contains the pattern are left unchanged, that stream is relabeled with
the rule's semantic, and the streams after it are left unchanged; `none`
when no stream's name contains the pattern. -/
def labelFirstContaining (pattern : String) (sem : Semantic)
    (ss : List VertexStream) : Option (List VertexStream) :=
  match ss.dropWhile (fun s => !(nameContains s.name pattern)) with
  | [] => none
  | m :: post =>
    some (ss.takeWhile (fun s => !(nameContains s.name pattern)) ++
      { m with semantic := sem } :: post)

/-- One rule step of the spec formulation (amended claim C8). -/
def guessStepSpec (acc : List VertexStream × List Semantic)
    (p : String × Semantic) : List VertexStream × List Semantic :=
  if acc.2.contains p.2 then acc
  else
    match labelFirstContaining p.1 p.2 acc.1 with
    | none => acc
    | some ss1 => (ss1, p.2 :: acc.2)

/-- The amended claim C8's description of the heuristic: rules are tested
strictly in declared priority order, a rule whose label is already claimed
is skipped, and each remaining rule relabels the first stream whose
lower-cased name contains its pattern, claiming its label. -/
def guessSemanticsSpecC8 (streams : List VertexStream) : List VertexStream :=
  (semanticPatterns.foldl guessStepSpec (streams, [])).1

/-- The first rule of the table whose pattern the lower-cased stream name
contains (the per-stream reading used by the original claim C8). -/
def firstMatchingRule (name : String) :
    List (String × Semantic) → Option Semantic
  | [] => none
  | (pat, sem) :: rest =>
    if nameContains name pat then some sem
    else firstMatchingRule name rest

/-- Helper for the original claim C8's per-stream reading: processes the
streams in order; a stream receives the label of the first rule whose
pattern its lower-cased name contains, provided that label is not already
claimed, and an assigned stream is never relabeled. -/
def claimC8Go (taken : List Semantic) :
    List VertexStream → List VertexStream
  | [] => []
  | s :: rest =>
    match firstMatchingRule s.name semanticPatterns with
    | none => s :: claimC8Go taken rest
    | some sem =>
      if taken.contains sem then s :: claimC8Go taken rest
      else { s with semantic := sem } :: claimC8Go (sem :: taken) rest

/-- The original claim C8's description of the heuristic ("first match per
stream wins; an assigned stream is not relabeled by later, lower-priority
rules"), stated as a function for comparison with `guessSemantics`. -/
def guessSemanticsClaimC8 (streams : List VertexStream) : List VertexStream :=
  claimC8Go [] streams

/-- Claim C4: with no identifying token (empty positional argument list),
`doTrackUpdate` performs no search (its outcome does not depend on the
dataset) and calls `UpdateTrack` exactly once, with a track whose `Id` is
empty and whose `Name`, `Description` and `Head` are the caller-supplied
flag values. -/
theorem doTrackUpdate_no_token_blind_update (flags : BuildFlags)
    (dataset dataset1 : List Track)
    (f : Track → Except GoError Track) :
    (doTrackUpdate flags [] dataset f).updateCalls
        = [{ Id := "", Name := flags.name, Description := flags.description,
             Head := flags.pkg }]
    ∧ doTrackUpdate flags [] dataset f = doTrackUpdate flags [] dataset1 f := by
  have h0 : ∀ ds : List Track, resolveTrack flags [] ds
      = .ok { Id := "", Name := flags.name, Description := flags.description,
              Head := flags.pkg } := fun _ => rfl
  refine ⟨?_, ?_⟩
  · unfold doTrackUpdate
    rw [h0]
    cases h : f { Id := "", Name := flags.name, Description := flags.description,
                  Head := flags.pkg } <;> simp [h]
  · unfold doTrackUpdate
    rw [h0, h0]

/-- Claim C3: when a token is supplied and the search stream completes
without error having recorded no match (the built track's `Id` is still the
empty sentinel), `doTrackUpdate` returns the not-found error and never
invokes `UpdateTrack`. -/
theorem doTrackUpdate_no_match_not_found (flags : BuildFlags)
    (tok : String) (rest : List String) (dataset : List Track)
    (f : Track → Except GoError Track) (t : Track)
    (hfold : searchTracksVisitFold (dataset.filter (idOrNameMatches tok))
        { Id := "", Name := flags.name, Description := flags.description,
          Head := flags.pkg } = .ok t)
    (hid : t.Id = "") :
    doTrackUpdate flags (tok :: rest) dataset f
      = { updateCalls := [],
          result := .error (.explainedNil "No tracks matched") } := by
  unfold doTrackUpdate resolveTrack
  simp only [hfold, hid]
  rfl

/-- Witness for C3: the spec's own example, a dataset holding one track
named alpha and the unmatched token beta. -/
theorem doTrackUpdate_no_match_not_found_witness :
    doTrackUpdate ⟨"", "", "", "", "", "n", "p"⟩ ["beta"]
        [⟨"t1", "alpha", "", ""⟩] (fun t => .ok t)
      = { updateCalls := [],
          result := .error (.explainedNil "No tracks matched") } :=
  doTrackUpdate_no_match_not_found ⟨"", "", "", "", "", "n", "p"⟩ "beta" []
    [⟨"t1", "alpha", "", ""⟩] (fun t => .ok t) ⟨"", "n", "", "p"⟩
    (by decide) (by decide)

/-- Claim C2: when a token is supplied and the stream completes with
exactly one matching track recorded (one match, whose id is nonempty),
`doTrackUpdate` proceeds to `UpdateTrack` with a track carrying the
resolved entity's `Id` and the caller-supplied `Name`, `Description` and
`Head`; no other field of the resolved entity is copied. -/
theorem doTrackUpdate_single_match_merges_flags (flags : BuildFlags)
    (tok : String) (rest : List String) (dataset : List Track)
    (f : Track → Except GoError Track) (e : Track)
    (hmatch : dataset.filter (idOrNameMatches tok) = [e])
    (hid : e.Id ≠ "") :
    (doTrackUpdate flags (tok :: rest) dataset f).updateCalls
      = [{ Id := e.Id, Name := flags.name, Description := flags.description,
           Head := flags.pkg }] := by
  have hfold : searchTracksVisitFold (dataset.filter (idOrNameMatches tok))
      { Id := "", Name := flags.name, Description := flags.description,
        Head := flags.pkg }
      = .ok { Id := e.Id, Name := flags.name,
              Description := flags.description, Head := flags.pkg } := by
    rw [hmatch]
    rfl
  unfold doTrackUpdate resolveTrack
  simp only [hfold]
  have hbeq : (e.Id == "") = false := by
    cases h : e.Id == "" with
    | true => exact absurd (eq_of_beq h) hid
    | false => rfl
  simp only [hbeq]
  cases h : f { Id := e.Id, Name := flags.name,
                Description := flags.description, Head := flags.pkg } <;>
    simp [h]

/-- Witness for C2: the spec's alpha example, resolving the single track
named alpha (id t1) and merging the caller flags onto its id. -/
theorem doTrackUpdate_single_match_merges_flags_witness :
    (doTrackUpdate ⟨"", "", "", "", "", "n", "p"⟩ ["alpha"]
        [⟨"t1", "alpha", "old description", "old head"⟩]
        (fun t => .ok t)).updateCalls
      = [⟨"t1", "n", "", "p"⟩] :=
  doTrackUpdate_single_match_merges_flags ⟨"", "", "", "", "", "n", "p"⟩
    "alpha" [] [⟨"t1", "alpha", "old description", "old head"⟩]
    (fun t => .ok t) ⟨"t1", "alpha", "old description", "old head"⟩
    (by decide) (by decide)

/-- Claim C1 (amended): if the bound query matches two or more tracks and
the first visited match carries a nonempty `Id`, `doTrackUpdate` returns
the ambiguity error at the second visited match, records no further
matches, and never invokes `UpdateTrack`. -/
theorem doTrackUpdate_ambiguity (flags : BuildFlags) (tok : String)
    (rest : List String) (dataset : List Track)
    (f : Track → Except GoError Track) (t1 t2 : Track) (ts : List Track)
    (hmatch : dataset.filter (idOrNameMatches tok) = t1 :: t2 :: ts)
    (hid : t1.Id ≠ "") :
    doTrackUpdate flags (tok :: rest) dataset f
      = { updateCalls := [],
          result := .error (.explainedNil "Multiple tracks matched") } := by
  have hbeq : (t1.Id != "") = true := by
    cases h : t1.Id == "" with
    | true => exact absurd (eq_of_beq h) hid
    | false => simp [bne, h]
  have hfold : searchTracksVisitFold (dataset.filter (idOrNameMatches tok))
      { Id := "", Name := flags.name, Description := flags.description,
        Head := flags.pkg }
      = .error (.explainedNil "Multiple tracks matched") := by
    rw [hmatch]
    show searchTracksVisitFold (t2 :: ts)
        { Id := t1.Id, Name := flags.name, Description := flags.description,
          Head := flags.pkg }
      = .error (.explainedNil "Multiple tracks matched")
    unfold searchTracksVisitFold trackVisitor
    simp only [hbeq]
    rfl
  unfold doTrackUpdate resolveTrack
  simp only [hfold]

/-- Witness for C1 (amended): the spec's duplicate-name example, two tracks
named dup with nonempty ids. -/
theorem doTrackUpdate_ambiguity_witness :
    doTrackUpdate ⟨"", "", "", "", "", "n", "p"⟩ ["dup"]
        [⟨"t1", "dup", "", ""⟩, ⟨"t2", "dup", "", ""⟩] (fun t => .ok t)
      = { updateCalls := [],
          result := .error (.explainedNil "Multiple tracks matched") } :=
  doTrackUpdate_ambiguity ⟨"", "", "", "", "", "n", "p"⟩ "dup" []
    [⟨"t1", "dup", "", ""⟩, ⟨"t2", "dup", "", ""⟩] (fun t => .ok t)
    ⟨"t1", "dup", "", ""⟩ ⟨"t2", "dup", "", ""⟩ [] (by decide) (by decide)

/-- Counterexample to C1 as stated: a dataset in which the query matches
two tracks, both carrying an empty `Id`; the resolver records neither
match, so it returns the not-found error instead of the ambiguity error
the claim requires for every dataset with two or more matches. -/
theorem doTrackUpdate_ambiguity_counterexample :
    (([⟨"", "dup", "", ""⟩, ⟨"", "dup", "", ""⟩] : List Track).filter
        (idOrNameMatches "dup")).length = 2
    ∧ doTrackUpdate ⟨"", "", "", "", "", "n", "p"⟩ ["dup"]
        [⟨"", "dup", "", ""⟩, ⟨"", "dup", "", ""⟩] (fun t => .ok t)
      = { updateCalls := [],
          result := .error (.explainedNil "No tracks matched") }
    ∧ (doTrackUpdate ⟨"", "", "", "", "", "n", "p"⟩ ["dup"]
        [⟨"", "dup", "", ""⟩, ⟨"", "dup", "", ""⟩] (fun t => .ok t)).result
      ≠ .error (.explainedNil "Multiple tracks matched") := by
  refine ⟨by decide, by decide, by decide⟩

/-- Claim C5 (amended): an `UpdateTrack` RPC failure is propagated to the
verb boundary verbatim, while an `Add` failure during build upload is not
verbatim: `process` wraps it in the explanation "Failed processing build",
keeping the original error as the cause. -/
theorem storeError_propagation :
    (∀ (flags : BuildFlags) (args : List String) (dataset : List Track)
        (f : Track → Except GoError Track) (t : Track) (e : GoError),
      resolveTrack flags args dataset = .ok t → f t = .error e →
      (doTrackUpdate flags args dataset f).result = .error e)
    ∧ (∀ (add : String → Information → Except GoError (String × Bool))
        (id : String) (info : Information) (e : GoError),
      add id info = .error e →
      buildUploaderProcess add id info
        = .error (.explained "Failed processing build" e)) := by
  constructor
  · intro flags args dataset f t e hres hf
    unfold doTrackUpdate
    simp only [hres, hf]
  · intro add id info e hadd
    unfold buildUploaderProcess
    simp only [hadd]

/-- Witness for C5 (amended): a concrete remote failure of each store
call, propagated verbatim by the track updater and wrapped by the build
uploader. -/
theorem storeError_propagation_witness :
    (doTrackUpdate ⟨"", "", "", "", "", "n", "p"⟩ [] []
        (fun _ => .error (.remote "connection reset"))).result
      = .error (.remote "connection reset")
    ∧ buildUploaderProcess (fun _ _ => .error (.remote "connection reset"))
        "file1" ⟨.BuildBot, "", "", "", "", "host", "alice"⟩
      = .error (.explained "Failed processing build"
          (.remote "connection reset")) :=
  ⟨storeError_propagation.1 ⟨"", "", "", "", "", "n", "p"⟩ [] []
      (fun _ => .error (.remote "connection reset")) ⟨"", "n", "", "p"⟩
      (.remote "connection reset") (by decide) rfl,
    storeError_propagation.2 (fun _ _ => .error (.remote "connection reset"))
      "file1" ⟨.BuildBot, "", "", "", "", "host", "alice"⟩
      (.remote "connection reset") rfl⟩

/-- Counterexample to C5 as stated: an RPC-level failure of the store's
`Add` call does not reach the verb boundary unmodified; `process` returns
it wrapped in a "Failed processing build" explanation. -/
theorem storeError_propagation_counterexample :
    buildUploaderProcess (fun _ _ => .error (.remote "connection reset"))
        "file1" ⟨.BuildBot, "", "", "", "", "host", "alice"⟩
      = .error (.explained "Failed processing build"
          (.remote "connection reset"))
    ∧ buildUploaderProcess (fun _ _ => .error (.remote "connection reset"))
        "file1" ⟨.BuildBot, "", "", "", "", "host", "alice"⟩
      ≠ .error (.remote "connection reset") := by
  refine ⟨rfl, by decide⟩

/-- Claim C6: for every malformed query text (any text on which the parser
fails), each of the four search verbs — artifact, package, track and stash
(the latter once its store connection is up) — returns the parser
diagnostic wrapped in the "Malformed search query" explanation and issues
no domain search call. -/
theorem searchVerbs_malformed_query (parse : String → Except GoError Expr)
    (searchA searchP searchT searchS : String → Except GoError Unit)
    (args : List String) (e : GoError)
    (hparse : parse (String.intercalate " " args) = .error e) :
    doArtifactSearch parse searchA args
      = { searchCalls := [],
          result := .error (.explained "Malformed search query" e) }
    ∧ doPackageSearch parse searchP args
      = { searchCalls := [],
          result := .error (.explained "Malformed search query" e) }
    ∧ doTrackSearch parse searchT args
      = { searchCalls := [],
          result := .error (.explained "Malformed search query" e) }
    ∧ doStashSearch (.ok ()) parse searchS args
      = { searchCalls := [],
          result := .error (.explained "Malformed search query" e) } := by
  refine ⟨?_, ?_, ?_, ?_⟩
  · unfold doArtifactSearch
    simp only [hparse]
  · unfold doPackageSearch
    simp only [hparse]
  · unfold doTrackSearch
    simp only [hparse]
  · unfold doStashSearch
    simp only [hparse]

/-- Witness for C6: a concrete parser that rejects the joined text of the
two-argument query. -/
theorem searchVerbs_malformed_query_witness :
    doArtifactSearch (fun _ => .error (.parse "unexpected token"))
        (fun _ => .ok ()) ["Name", "=="]
      = { searchCalls := [],
          result := .error (.explained "Malformed search query"
            (.parse "unexpected token")) }
    ∧ doPackageSearch (fun _ => .error (.parse "unexpected token"))
        (fun _ => .ok ()) ["Name", "=="]
      = { searchCalls := [],
          result := .error (.explained "Malformed search query"
            (.parse "unexpected token")) }
    ∧ doTrackSearch (fun _ => .error (.parse "unexpected token"))
        (fun _ => .ok ()) ["Name", "=="]
      = { searchCalls := [],
          result := .error (.explained "Malformed search query"
            (.parse "unexpected token")) }
    ∧ doStashSearch (.ok ()) (fun _ => .error (.parse "unexpected token"))
        (fun _ => .ok ()) ["Name", "=="]
      = { searchCalls := [],
          result := .error (.explained "Malformed search query"
            (.parse "unexpected token")) } :=
  searchVerbs_malformed_query (fun _ => .error (.parse "unexpected token"))
    (fun _ => .ok ()) (fun _ => .ok ()) (fun _ => .ok ()) (fun _ => .ok ())
    ["Name", "=="] (.parse "unexpected token") rfl

/-- Claim C7: when the git collaborator fails to open and neither a branch
nor an uploader flag was supplied, the prepared build information has type
BuildBot, its uploader is the current OS user, and every other provenance
field is the caller-supplied flag value; moreover `prepare` returns a nil
error on every input. -/
theorem buildUploaderPrepare_buildbot_defaults (flags : BuildFlags)
    (env : PrepareEnv) (host uname : String) (gerr : GoError)
    (hgit : env.gitOpen = .error gerr)
    (hbranch : flags.branch = "") (hupl : flags.uploader = "")
    (huser : env.osUser = .ok uname) :
    buildUploaderPrepare flags env host
      = .ok { Typ := .BuildBot, Branch := "", Cl := flags.cl,
              Tag := flags.tag, Description := flags.description,
              Builder := host, Uploader := uname }
    ∧ ∀ (flags1 : BuildFlags) (env1 : PrepareEnv) (host1 : String),
        ∃ info, buildUploaderPrepare flags1 env1 host1 = .ok info := by
  constructor
  · unfold buildUploaderPrepare inferBuildInfo
    simp only [hgit, hupl, huser, hbranch]
    rfl
  · intro flags1 env1 host1
    exact ⟨inferBuildInfo flags1 env1 host1, rfl⟩

/-- Witness for C7: a concrete environment with no git context and the OS
user alice, and empty branch and uploader flags. -/
theorem buildUploaderPrepare_buildbot_defaults_witness :
    buildUploaderPrepare ⟨"tag1", "cl1", "", "desc1", "", "", ""⟩
        ⟨.error (.remote "git: not a repository"), .ok "alice"⟩ "host1"
      = .ok { Typ := .BuildBot, Branch := "", Cl := "cl1", Tag := "tag1",
              Description := "desc1", Builder := "host1",
              Uploader := "alice" } :=
  (buildUploaderPrepare_buildbot_defaults
    ⟨"tag1", "cl1", "", "desc1", "", "", ""⟩
    ⟨.error (.remote "git: not a repository"), .ok "alice"⟩ "host1" "alice"
    (.remote "git: not a repository") rfl rfl rfl rfl).1

/-- The inner loop of `guessSemantics` relabels exactly the first stream
whose lower-cased name contains the pattern, leaving the streams before
and after it unchanged. -/
theorem assignFirst_eq_labelFirstContaining (pattern : String)
    (sem : Semantic) (ss : List VertexStream) :
    assignFirst pattern sem ss = labelFirstContaining pattern sem ss := by
  induction ss with
  | nil => rfl
  | cons s rest ih =>
    by_cases h : nameContains s.name pattern
    · unfold assignFirst labelFirstContaining
      simp [h, List.dropWhile_cons, List.takeWhile_cons]
    · unfold assignFirst labelFirstContaining
      rw [ih]
      unfold labelFirstContaining
      simp only [List.dropWhile_cons, List.takeWhile_cons, h,
        Bool.not_false, if_true]
      cases hdrop : rest.dropWhile (fun t => !(nameContains t.name pattern)) with
      | nil => rfl
      | cons m post => rfl

/-- Claim C8 (amended): `guessSemantics` tests the rules strictly in
declared priority order, skips a rule whose label is already claimed, and
lets each remaining rule relabel the first stream whose lower-cased name
contains its pattern (claiming the label); consequently a stream already
labeled by an earlier rule can be relabeled by a later, lower-priority
rule whose pattern its name also contains, and a stream whose name
contains no applicable pattern is left with its label unset. -/
theorem guessSemantics_eq_spec (streams : List VertexStream) :
    guessSemantics streams = guessSemanticsSpecC8 streams := by
  have hstep : guessStep = guessStepSpec := by
    funext acc p
    unfold guessStep guessStepSpec
    rw [assignFirst_eq_labelFirstContaining]
  unfold guessSemantics guessSemanticsSpecC8
  rw [hstep]

/-- Counterexample to C8 as stated: the single stream position_normal. Its
name contains the pattern of the first rule (position), so under the
claim's "first match per stream wins, no relabeling" reading its label is
Position; `guessSemantics` instead relabels it via the later normal rule,
ending with Normal. -/
theorem guessSemantics_relabel_counterexample :
    guessSemantics [⟨"position_normal", .Unknown⟩]
      = [⟨"position_normal", .Normal⟩]
    ∧ guessSemanticsClaimC8 [⟨"position_normal", .Unknown⟩]
      = [⟨"position_normal", .Position⟩]
    ∧ guessSemantics [⟨"position_normal", .Unknown⟩]
      ≠ guessSemanticsClaimC8 [⟨"position_normal", .Unknown⟩] := by
  refine ⟨by decide, by decide, by decide⟩

/-- Claim C9: the stash upload implementation is a no-op; `prepare` and
`process` both return nil on every input, so the spec-modelled upload
driver reports success for every listed file while issuing no stash store
call. -/
theorem stashUploader_noop (conn : GrpcConn) (paths : List String) :
    stashUploaderPrepare conn = .ok ()
    ∧ (∀ path : String, stashUploaderProcess path = .ok ())
    ∧ doUploadStash paths = paths.map (fun p => (p, .ok ())) :=
  ⟨rfl, fun _ => rfl, rfl⟩

/-- Streaming over matches that all carry an empty `Id` leaves the
sentinel state unchanged: the fold succeeds with the track it started
from. -/
theorem searchTracksVisitFold_all_empty (l : List Track) (track : Track)
    (htrack : track.Id = "") (hl : ∀ t ∈ l, t.Id = "") :
    searchTracksVisitFold l track = .ok track := by
  induction l with
  | nil => rfl
  | cons e rest ih =>
    have he : e.Id = "" := hl e (List.mem_cons_self e rest)
    have hupd : ({ track with Id := e.Id } : Track) = track := by
      cases track
      simp_all
    unfold searchTracksVisitFold trackVisitor
    simp only [htrack, bne_self_eq_false, if_neg, Bool.false_eq_true,
      not_false_eq_true, if_false]
    rw [hupd]
    exact ih (fun t ht => hl t (List.mem_cons_of_mem e ht))

/-- Claim C10 (amended): the resolver uses the empty string on `track.Id`
as its no-match-recorded sentinel, so a visited track whose `Id` is empty
is never recorded as the match (its visit, from the sentinel state, leaves
the state unchanged) and a stream yielding only empty-id matches ends in
the not-found error with no `UpdateTrack` call; however the visit of any
entry made after a nonempty-id match was recorded reports the ambiguity
error, so multiplicity detection is exact only when every visited track
has a nonempty id. -/
theorem emptyId_sentinel (tr entry : Track) (flags : BuildFlags)
    (tok : String) (rest : List String) (dataset : List Track)
    (f : Track → Except GoError Track)
    (hsent : tr.Id = "") (hentry : entry.Id = "")
    (hall : ∀ t ∈ dataset.filter (idOrNameMatches tok), t.Id = "") :
    trackVisitor tr entry = .ok tr
    ∧ (∀ tr1 e1 : Track, tr1.Id ≠ "" →
        trackVisitor tr1 e1 = .error (.explainedNil "Multiple tracks matched"))
    ∧ doTrackUpdate flags (tok :: rest) dataset f
      = { updateCalls := [],
          result := .error (.explainedNil "No tracks matched") } := by
  refine ⟨?_, ?_, ?_⟩
  · have hupd : ({ tr with Id := entry.Id } : Track) = tr := by
      cases tr
      simp_all
    unfold trackVisitor
    simp only [hsent, bne_self_eq_false, Bool.false_eq_true, not_false_eq_true,
      if_false, hupd]
  · intro tr1 e1 hid
    have hbeq : (tr1.Id != "") = true := by
      cases h : tr1.Id == "" with
      | true => exact absurd (eq_of_beq h) hid
      | false => simp [bne, h]
    unfold trackVisitor
    simp only [hbeq, if_true]
  · have hfold : searchTracksVisitFold (dataset.filter (idOrNameMatches tok))
        { Id := "", Name := flags.name, Description := flags.description,
          Head := flags.pkg }
        = .ok { Id := "", Name := flags.name,
                Description := flags.description, Head := flags.pkg } :=
      searchTracksVisitFold_all_empty _ _ rfl hall
    unfold doTrackUpdate resolveTrack
    simp only [hfold]
    rfl

/-- Witness for C10 (amended): two empty-id tracks named dup; neither is
recorded, the sentinel visit is a no-op, and the run ends not-found even
though the query matched both tracks. -/
theorem emptyId_sentinel_witness :
    trackVisitor ⟨"", "n", "", "p"⟩ ⟨"", "dup", "", ""⟩
      = .ok ⟨"", "n", "", "p"⟩
    ∧ (∀ tr1 e1 : Track, tr1.Id ≠ "" →
        trackVisitor tr1 e1 = .error (.explainedNil "Multiple tracks matched"))
    ∧ doTrackUpdate ⟨"", "", "", "", "", "n", "p"⟩ ["dup"]
        [⟨"", "dup", "", ""⟩, ⟨"", "dup", "", ""⟩] (fun t => .ok t)
      = { updateCalls := [],
          result := .error (.explainedNil "No tracks matched") } :=
  emptyId_sentinel ⟨"", "n", "", "p"⟩ ⟨"", "dup", "", ""⟩
    ⟨"", "", "", "", "", "n", "p"⟩ "dup" []
    [⟨"", "dup", "", ""⟩, ⟨"", "dup", "", ""⟩] (fun t => .ok t)
    rfl rfl (by decide)

/-- Counterexample to C10 as stated: a stream whose first match has id t1
and whose second match has an empty id; the visit of the empty-id track
itself returns the ambiguity error, refuting "a visited track whose Id is
the empty string never triggers the ambiguity error". -/
theorem emptyId_sentinel_counterexample :
    (Track.Id ⟨"", "dup", "", ""⟩ = "")
    ∧ trackVisitor ⟨"t1", "n", "", "p"⟩ ⟨"", "dup", "", ""⟩
      = .error (.explainedNil "Multiple tracks matched")
    ∧ (doTrackUpdate ⟨"", "", "", "", "", "n", "p"⟩ ["dup"]
        [⟨"t1", "dup", "", ""⟩, ⟨"", "dup", "", ""⟩] (fun t => .ok t)).result
      = .error (.explainedNil "Multiple tracks matched") := by
  refine ⟨rfl, by decide, by decide⟩
